import Mathlib

/-!
Verification of the qsearch repository (GeoNet/qsearch): a shallow embedding of
the wfs, quakeml12 and seiscompml07 packages, with theorems settling the frozen
claims about request construction, range chunking, fetching, entity linking and
result aggregation.

Conventions of the embedding:
* Go `map[string]T` is modelled as an association list built by overwriting
  insertion (`GoMap`); the claims never depend on the randomized iteration
  order, and insertion order stands in for it.
* Go `*T` pointer fields that may be nil are modelled as `Option T`; a nil
  dereference (a Go runtime panic) is modelled by the `panicked` constructor of
  the result type of the function in which it occurs.
* Go `error` values are modelled as `Option String` / `Except String`.
* Go `float64` is modelled as `ℚ`; the rendering functions below model `fmt`
  verbs on the decimal values this program actually handles (CLI-supplied
  decimal literals); no claim inspects rounding behaviour.
* `time.Time` is modelled as a calendar record `DateTime`; instants are
  compared field-lexicographically, which agrees with Go on normalized dates.
-/

namespace QSearch

/-! ## Go map model -/

abbrev GoMap (α : Type) : Type := List (String × α)

def mapInsert {α : Type} : GoMap α → String → α → GoMap α
  | [], k, v => [(k, v)]
  | (k0, v0) :: t, k, v =>
    if k0 = k then (k, v) :: t else (k0, v0) :: mapInsert t k v

def mapLookup {α : Type} : GoMap α → String → Option α
  | [], _ => none
  | (k0, v0) :: t, k => if k0 = k then some v0 else mapLookup t k

def mapKeys {α : Type} (m : GoMap α) : List String := m.map Prod.fst

/-- Build a Go map from a list of key/value pairs by successive insertion
(`m[k] = v` in a loop). -/
def buildMap {α : Type} (l : List (String × α)) : GoMap α :=
  l.foldl (fun m p => mapInsert m p.1 p.2) []

theorem mapInsert_fresh {α : Type} {m : GoMap α} {k : String} (v : α)
    (h : k ∉ mapKeys m) : mapInsert m k v = m ++ [(k, v)] := by
  induction m with
  | nil => rfl
  | cons p t ih =>
    obtain ⟨k0, v0⟩ := p
    simp only [mapKeys, List.map_cons, List.mem_cons, not_or] at h
    simp only [mapInsert, List.cons_append, ih (by simpa [mapKeys] using h.2)]
    rw [if_neg (fun hh => h.1 hh.symm)]

theorem mapKeys_append {α : Type} (m₁ m₂ : GoMap α) :
    mapKeys (m₁ ++ m₂) = mapKeys m₁ ++ mapKeys m₂ := by
  simp [mapKeys]

/-! ## Go time model

`DateTime` stands for a (normalized, UTC) Go `time.Time` at the granularity the
program uses: calendar fields down to seconds plus nanoseconds. -/

structure DateTime where
  year : Int
  month : Nat
  day : Nat
  hour : Nat
  minute : Nat
  second : Nat
  nsec : Nat
  deriving DecidableEq, Repr

/-- Go `isLeap` (time package). -/
def isLeap (y : Int) : Bool :=
  y % 4 == 0 && (y % 100 != 0 || y % 400 == 0)

def daysInMonth (y : Int) (m : Nat) : Nat :=
  if m = 2 then (if isLeap y then 29 else 28)
  else if m = 4 ∨ m = 6 ∨ m = 9 ∨ m = 11 then 30
  else 31

/-- Day-overflow normalization performed by Go `time.Date` (as reached from
`AddDate`): a day count exceeding the month length rolls into the following
month.  Fuel bounds the rolling; 24 steps cover any day value `AddDate`
can produce here. -/
def normDate : Nat → Int → Nat → Nat → Int × Nat × Nat
  | 0, y, m, d => (y, m, d)
  | fuel + 1, y, m, d =>
    if d ≤ daysInMonth y m then (y, m, d)
    else if m ≥ 12 then normDate fuel (y + 1) 1 (d - daysInMonth y 12)
    else normDate fuel y (m + 1) (d - daysInMonth y m)

/-- Go `t.AddDate(n, 0, 0)`: add `n` years and normalize (so Feb 29 in a
non-leap target year becomes Mar 1). -/
def DateTime.addYears (t : DateTime) (n : Int) : DateTime :=
  let r := normDate 24 (t.year + n) t.month t.day
  { t with year := r.1, month := r.2.1, day := r.2.2 }

/-- Go `t.After(u)` on normalized UTC times: field-lexicographic strict
comparison. -/
def DateTime.after (a b : DateTime) : Bool :=
  if a.year = b.year then
    if a.month = b.month then
      if a.day = b.day then
        if a.hour = b.hour then
          if a.minute = b.minute then
            if a.second = b.second then decide (a.nsec > b.nsec)
            else decide (a.second > b.second)
          else decide (a.minute > b.minute)
        else decide (a.hour > b.hour)
      else decide (a.day > b.day)
    else decide (a.month > b.month)
  else decide (a.year > b.year)

theorem DateTime.year_le_of_not_after {a b : DateTime}
    (h : a.after b = false) : a.year ≤ b.year := by
  by_cases hy : a.year = b.year
  · exact le_of_eq hy
  · simp only [DateTime.after, if_neg hy, decide_eq_false_iff_not, not_lt] at h
    exact h

/-! ### Rendering (Go `fmt` / `time.Format`) -/

/-- Left-pad the decimal rendering of `n` with zeros to width `w` (Go numeric
layout fields such as `01`, `04`, `2006`). -/
def padNum (w : Nat) (n : Nat) : String :=
  let s := toString n
  String.mk (List.replicate (w - s.length) '0') ++ s

/-- Go `t.Format("2006-01-02T15:04:05")`: second precision, no zone. -/
def DateTime.formatSec (t : DateTime) : String :=
  padNum 4 t.year.toNat ++ "-" ++ padNum 2 t.month ++ "-" ++ padNum 2 t.day ++
    "T" ++ padNum 2 t.hour ++ ":" ++ padNum 2 t.minute ++ ":" ++ padNum 2 t.second

/-- The fractional-second part of `time.RFC3339Nano`: omitted when zero,
otherwise nine digits with trailing zeros removed. -/
def fracNano (n : Nat) : String :=
  if n = 0 then ""
  else "." ++ String.mk (((padNum 9 n).data.reverse.dropWhile (fun c => c = '0')).reverse)

/-- Go `t.Format(time.RFC3339Nano)` for a UTC time. -/
def DateTime.formatRFC3339Nano (t : DateTime) : String :=
  t.formatSec ++ fracNano t.nsec ++ "Z"

/-- Days from 1970-01-01 of a civil date (the standard civil-from-days inverse
used by the Go internal date arithmetic). -/
def daysFromCivil (y : Int) (m : Nat) (d : Nat) : Int :=
  let y' : Int := y - (if m ≤ 2 then 1 else 0)
  let era : Int := Int.fdiv y' 400
  let yoe : Int := y' - era * 400
  let mp : Int := (m : Int) + (if m > 2 then -3 else 9)
  let doy : Int := (153 * mp + 2) / 5 + (d : Int) - 1
  let doe : Int := yoe * 365 + yoe / 4 - yoe / 100 + doy
  era * 146097 + doe - 719468

/-- Seconds since the epoch of a `DateTime` (nanoseconds excluded). -/
def DateTime.toSec (t : DateTime) : Int :=
  daysFromCivil t.year t.month t.day * 86400 +
    (t.hour : Int) * 3600 + (t.minute : Int) * 60 + (t.second : Int)

/-- Go `a.Sub(b).Seconds()`: the signed difference in seconds, as an exact
rational. -/
def DateTime.subSeconds (a b : DateTime) : ℚ :=
  ((a.toSec - b.toSec : Int) : ℚ) + (((a.nsec : Int) - (b.nsec : Int) : Int) : ℚ) / 1000000000

/-- Go `%v` on a float64 holding an exact short decimal: minimal decimal
rendering (integer part only when the value is integral). -/
def fmtDec (q : ℚ) : String :=
  if q.den = 1 then toString q.num
  else
    let sign := if q < 0 then "-" else ""
    let a : ℚ := |q|
    let k := (List.range 20).find? (fun k => (a * (10 : ℚ) ^ k).den = 1)
    match k with
    | some k =>
      let n := (a * (10 : ℚ) ^ k).num.toNat
      sign ++ toString (n / 10 ^ k) ++ "." ++
        String.mk (((padNum k (n % 10 ^ k)).data.reverse.dropWhile (fun c => c = '0')).reverse)
    | none => toString q.num ++ "/" ++ toString q.den

/-- Go `%f` on a float64: six decimal places. -/
def fmtF6 (q : ℚ) : String :=
  let sign := if q < 0 then "-" else ""
  let a : ℚ := |q|
  let n : Nat := (Rat.floor (a * 1000000 + 1 / 2)).toNat
  sign ++ toString (n / 1000000) ++ "." ++ padNum 6 (n % 1000000)


/-! ## Package `wfs` -/

namespace wfs

def wfsUrl : String :=
  "http://wfs.geonet.org.nz/geonet/ows?service=WFS&version=1.0.0&request=GetFeature&typeName=geonet:quake_search_v1&outputFormat=json"

/-- Query parameters for querying the WFS. -/
structure Query where
  EventID : String
  Start : DateTime
  End : DateTime
  MinUsedPhaseCount : Int
  MinMagnitude : ℚ
  Bbox : String
  deriving DecidableEq, Repr

/-- The `-999.9` float64 sentinel for an unset minimum magnitude, as the
rational -9999/10 in lowest terms (constructor form so that the kernel can
evaluate comparisons against it). -/
def magSentinel : ℚ := ⟨-9999, 10, by decide, by decide⟩

/-- Properties for unmarshalling the JSON returned from the WFS. -/
structure Properties where
  PublicID : String
  EventType : String
  OriginTime : String
  ModificationTime : String
  Latitude : ℚ
  Longitude : ℚ
  Depth : ℚ
  Magnitude : ℚ
  EvaluationMethod : String
  EvaluationStatus : String
  EvaluationMode : String
  EarthModel : String
  DepthType : String
  OriginError : ℚ
  UsedPhaseCount : Int
  UsedStationCount : Int
  MinimumDistance : ℚ
  AzimuthalGap : ℚ
  MagnitudeType : String
  MagnitudeUncertainty : ℚ
  MagnitudeStationCount : Int
  deriving Repr

/-- Feature for unmarshalling the JSON returned from the WFS. -/
structure Feature where
  Properties : Properties
  deriving Repr

/-- Function `Query.url` converts the query to a WFS search URL (source: wfs.go). -/
def Query.url (q : Query) : String :=
  let s :=
    if q.EventID ≠ "" then
      "&cql_filter=publicid==\x27" ++ q.EventID ++ "\x27"
    else
      let s0 := "&cql_filter=origintime>=\x27" ++ q.Start.formatSec ++
        "\x27+AND+origintime<=\x27" ++ q.End.formatSec ++ "\x27"
      let s1 := if q.MinUsedPhaseCount ≠ -999 then
        s0 ++ "+AND+usedphasecount>=" ++ toString q.MinUsedPhaseCount else s0
      let s2 := if q.MinMagnitude ≠ magSentinel then
        s1 ++ "+AND+magnitude>=" ++ fmtDec q.MinMagnitude else s1
      if q.Bbox ≠ "" then s2 ++ "+AND+BBOX(origin_geom," ++ q.Bbox ++ ")" else s2
  wfsUrl ++ s

/-- Join a list of filter clauses with the literal separator `+AND+` (the
clause-sequence description of spec §4.1; compared against `Query.url`). -/
def joinAND : List String → String
  | [] => ""
  | c :: cs => cs.foldl (fun a b => a ++ "+AND+" ++ b) c

/-- The clause sequence of spec §4.1 for a time-window query: inclusive
origintime bounds, then the optional phase-count, magnitude and BBOX clauses,
each present exactly when its sentinel/empty condition fails. -/
def timeWindowClauses (q : Query) : List String :=
  ["origintime>=\x27" ++ q.Start.formatSec ++ "\x27",
   "origintime<=\x27" ++ q.End.formatSec ++ "\x27"] ++
  (if q.MinUsedPhaseCount ≠ -999 then
    ["usedphasecount>=" ++ toString q.MinUsedPhaseCount] else []) ++
  (if q.MinMagnitude ≠ magSentinel then
    ["magnitude>=" ++ fmtDec q.MinMagnitude] else []) ++
  (if q.Bbox ≠ "" then ["BBOX(origin_geom," ++ q.Bbox ++ ")"] else [])

/-- The spec §4.1 description of the built request: base endpoint, then the
joined clause sequence. -/
def urlSpec (q : Query) : String :=
  wfsUrl ++ "&cql_filter=" ++ joinAND (timeWindowClauses q)

/-- Struct `result` is used for passing variables on the processing pipeline
(source: wfs.go). -/
structure Result where
  features : List Feature
  err : Option String

/-- The aggregation loop of `Query.search` (source: wfs.go lines 447-456),
applied to the stream of worker results in the order the channel delivers
them: the first errored result aborts with that error and a nil map, otherwise
every feature is merged into the map keyed by its `PublicID`. -/
def searchLoop : List Result → GoMap Feature → Except String (GoMap Feature)
  | [], res => .ok res
  | r :: rs, res =>
    match r.err with
    | some e => .error e
    | none =>
      searchLoop rs (r.features.foldl (fun m f => mapInsert m f.Properties.PublicID f) res)

/-- Function `Query.search` in strict mode, abstracted over the result stream the worker
pool delivers (concurrency linearized to the channel-receive order). -/
def search (rs : List Result) : Except String (GoMap Feature) :=
  searchLoop rs []

/-- One iteration of the chunking loop of `Query.writeUrls` (source: wfs.go
lines 393-404): advance `a.End` a year, emit the chunk, advance `a.Start` a
year; returns the emitted chunks and the final loop state. -/
def writeUrlsLoop : Query → Nat → List Query × Query
  | a, 0 => ([], a)
  | a, n + 1 =>
    let b := { a with End := a.End.addYears 1 }
    let r := writeUrlsLoop { b with Start := b.Start.addYears 1 } n
    (b :: r.1, r.2)

/-- The sub-queries emitted by `Query.writeUrls`: year chunks when the range
spans a year boundary, then a final chunk ending at the original `End`. -/
def Query.chunks (q : Query) : List Query :=
  if q.End.year - q.Start.year > 0 then
    let r := writeUrlsLoop { q with End := q.Start } (q.End.year - q.Start.year).toNat
    r.1 ++ [{ r.2 with End := q.End }]
  else
    [{ q with End := q.End }]

/-- Function `Query.writeUrls`: the URL stream fed to the fetch workers, in emission
order. -/
def Query.writeUrls (q : Query) : List String :=
  q.chunks.map Query.url

end wfs

/-! ## Shared result shapes for the fetch pipeline -/

/-- The outcome of a computation that may end in a Go runtime panic (a nil
pointer dereference) instead of returning. -/
inductive PanicOr (α : Type) where
  | crash
  | ok (a : α)
  deriving DecidableEq, Repr

/-- The outcome of an `init` (entity linking) call: a linked document, an
explicit error return, or a runtime panic. -/
inductive InitResult (α : Type) where
  | ok (a : α)
  | err (msg : String)
  | crash
  deriving DecidableEq, Repr

/-- What one `client.Get` of a request target delivers: a transport error
(`err != nil`, response nil), or a response carrying a status code, the
`ioutil.ReadAll` outcome, and — standing in for the raw bytes — what decoding
the body would yield. -/
inductive Wire (α : Type) where
  | transportError (msg : String)
  | response (statusCode : Int) (readErr : Option String) (body : Except String α)
  deriving Repr

/-! ## Package `quakeml12` -/

namespace quakeml12

structure WaveformID where
  NetworkCode : String
  StationCode : String
  LocationCode : String
  ChannelCode : String
  deriving DecidableEq, Repr

structure TimeValue where
  Value : DateTime
  Uncertainty : ℚ
  deriving DecidableEq, Repr

structure Pick where
  PublicID : String
  Time : TimeValue
  WaveformID : WaveformID
  PhaseHint : String
  EvaluationMode : String
  EvaluationStatus : String
  deriving DecidableEq, Repr

structure Arrival where
  PickID : String
  Phase : String
  Azimuth : ℚ
  Distance : ℚ
  TimeResidual : ℚ
  TimeWeight : ℚ
  Pick : Option Pick
  deriving DecidableEq, Repr

structure Mag where
  Value : ℚ
  Uncertainty : ℚ
  deriving DecidableEq, Repr

structure Magnitude where
  PublicID : String
  Mag : Mag
  «Type» : String
  MethodID : String
  StationCount : Int
  deriving DecidableEq, Repr

structure Origin where
  PublicID : String
  Time : TimeValue
  Arrivals : List Arrival
  deriving DecidableEq, Repr

structure Event where
  PreferredOriginID : String
  PreferredMagnitudeID : String
  O : List Origin
  M : List Magnitude
  P : List Pick
  Origins : GoMap Origin
  Picks : GoMap Pick
  Magnitudes : GoMap Magnitude
  PreferredOrigin : Option Origin
  PreferredMagnitude : Option Magnitude
  deriving DecidableEq, Repr

structure EventParameters where
  Event : Event
  deriving DecidableEq, Repr

structure Quakeml where
  EventParameters : EventParameters
  deriving DecidableEq, Repr

/-- The Go zero value of `Event` (what `unmarshal` returns alongside an
error). -/
def zeroEvent : Event :=
  { PreferredOriginID := "", PreferredMagnitudeID := "", O := [], M := [],
    P := [], Origins := [], Picks := [], Magnitudes := [],
    PreferredOrigin := none, PreferredMagnitude := none }

/-- The row the `ArrivalMap` loop body builds for one arrival, given the
`Pick` the dereference `a.Pick` yields. -/
def arrivalRow (ot : TimeValue) (a : Arrival) (p : Pick) : GoMap String :=
  buildMap [("NetworkCode", p.WaveformID.NetworkCode),
    ("StationCode", p.WaveformID.StationCode),
    ("ChannelCode", p.WaveformID.ChannelCode),
    ("LocationCode", p.WaveformID.LocationCode),
    ("Phase", a.Phase),
    ("PhaseTime", p.Time.Value.formatRFC3339Nano),
    ("PhaseOriginOffset", fmtF6 (p.Time.Value.subSeconds ot.Value)),
    ("TimeResidual", fmtF6 a.TimeResidual),
    ("TimeWeight", fmtF6 a.TimeWeight)]

/-- The `ArrivalMap` loop: the `Pick` pointer of every arrival is dereferenced
unconditionally; `none` models the nil dereference panic. -/
def arrivalMapLoop (ot : TimeValue) : List Arrival → Option (List (GoMap String))
  | [] => some []
  | a :: rest =>
    match a.Pick with
    | none => none
    | some p => (arrivalMapLoop ot rest).map (fun t => arrivalRow ot a p :: t)

/-- Method `Origin.ArrivalMap` remaps the Arrival information for user selectable
output (source: quakeml12.go lines 159-179). -/
def Origin.ArrivalMap (o : Origin) : Option (List (GoMap String)) :=
  arrivalMapLoop o.Time o.Arrivals

/-- Method `Event.PickMap`: one row per pick in the `Picks` map. -/
def Event.PickMap (e : Event) : List (GoMap String) :=
  e.Picks.map (fun kp =>
    buildMap [("NetworkCode", kp.2.WaveformID.NetworkCode),
      ("StationCode", kp.2.WaveformID.StationCode),
      ("ChannelCode", kp.2.WaveformID.ChannelCode),
      ("LocationCode", kp.2.WaveformID.LocationCode),
      ("PhaseHint", kp.2.PhaseHint),
      ("PhaseTime", kp.2.Time.Value.formatRFC3339Nano)])

/-- The document `init` produces once the preferred-origin reference resolved
to `po`: maps built, preferred references looked up, and the preferred
origin arrivals linked to their picks.  Go performs the arrival linking in
place through the pointer shared by the Origins map, the O slice and
PreferredOrigin; with PublicIDs unique within the document (duplicates are
undefined behaviour, spec §4.5 step 5) the update is observed at all
three. -/
def linkPreferred (q : Quakeml) (po : Origin) : Quakeml :=
  let e := q.EventParameters.Event
  let origins := buildMap (e.O.map fun o => (o.PublicID, o))
  let magnitudes := buildMap (e.M.map fun m => (m.PublicID, m))
  let picks := buildMap (e.P.map fun p => (p.PublicID, p))
  let po' := { po with
    Arrivals := po.Arrivals.map fun a => { a with Pick := mapLookup picks a.PickID } }
  { EventParameters := { Event := { e with
      O := e.O.map (fun o => if o.PublicID = e.PreferredOriginID then po' else o),
      Origins := mapInsert origins po'.PublicID po',
      Magnitudes := magnitudes,
      Picks := picks,
      PreferredOrigin := some po',
      PreferredMagnitude := mapLookup magnitudes e.PreferredMagnitudeID } } }

/-- Method `Quakeml.init` performs initialisation (entity linking) on the decoded
QuakeML (source: quakeml12.go lines 182-231). -/
def Quakeml.init (q : Quakeml) : InitResult Quakeml :=
  let e := q.EventParameters.Event
  if e.PreferredOriginID = "" then .err "Empty PreferredOriginID"
  else if e.PreferredMagnitudeID = "" then .err "Empty PreferredMagnitudeID"
  else if e.O.length = 0 then .err "Found no origins"
  else if e.M.length = 0 then .err "Found no magnitudes"
  else
    let origins := buildMap (e.O.map fun o => (o.PublicID, o))
    match mapLookup origins e.PreferredOriginID with
    | none =>
      -- the arrival loop ranges over `e.PreferredOrigin.Arrivals`; with a nil
      -- preferred origin that dereference panics
      .crash
    | some po => .ok (linkPreferred q po)

/-- Function `unmarshal`: decode then link.  The argument is what `xml.Unmarshal`
yields on the body. -/
def unmarshal (b : Except String Quakeml) : PanicOr (Event × Option String) :=
  match b with
  | .error msg => .ok (zeroEvent, some msg)
  | .ok q =>
    match q.init with
    | .crash => .crash
    | .err msg => .ok (q.EventParameters.Event, some msg)
    | .ok q' => .ok (q'.EventParameters.Event, none)

/-- Struct `result` is used for passing variables on the processing pipeline
(source: quakeml12.go). -/
structure Result where
  event : Event
  publicID : String
  err : Option String
  deriving DecidableEq, Repr

/-- The body of one `fetcher` loop iteration (source: quakeml12.go lines
255-280) for one event id, given what the wire delivers.  NOTE the source runs
`defer r.Body.Close()` before checking the error from `client.Get`; on a
transport error `r` is nil and evaluating `r.Body` panics. -/
def fetchStep (publicid : String) (w : Wire Quakeml) : PanicOr Result :=
  match w with
  | .transportError _ => .crash
  | .response status readErr body =>
    match readErr with
    | some msg => .ok { event := zeroEvent, publicID := publicid, err := some msg }
    | none =>
      if status ≠ 200 then
        .ok { event := zeroEvent, publicID := publicid,
              err := some ("Non 200 response code: " ++ toString status) }
      else
        match unmarshal body with
        | .crash => .crash
        | .ok (e, err) => .ok { event := e, publicID := publicid, err := err }

/-- The aggregation loop of `Get` (source: quakeml12.go lines 317-331),
linearized over the event ids: errored results are logged and skipped,
successes are keyed by the requested id; a worker panic kills the run. -/
def GetLoop (tr : String → Wire Quakeml) :
    List String → GoMap Event → PanicOr (GoMap Event)
  | [], m => .ok m
  | id :: rest, m =>
    match fetchStep id (tr id) with
    | .crash => .crash
    | .ok r =>
      GetLoop tr rest
        (match r.err with
          | some _ => m
          | none => mapInsert m r.publicID r.event)

/-- Function `Get` retrieves QuakeML for each EventID; errors are logged but not
returned (source: quakeml12.go lines 284-333).  `tr` gives the wire outcome
per event id. -/
def Get (tr : String → Wire Quakeml) (ids : List String) : PanicOr (GoMap Event) :=
  GetLoop tr ids []

end quakeml12

/-! ## Package `seiscompml07` -/

namespace seiscompml07

structure WaveformID where
  NetworkCode : String
  StationCode : String
  LocationCode : String
  ChannelCode : String
  deriving DecidableEq, Repr

structure TimeValue where
  Value : DateTime
  Uncertainty : ℚ
  deriving DecidableEq, Repr

structure Pick where
  PublicID : String
  Time : TimeValue
  WaveformID : WaveformID
  PhaseHint : String
  EvaluationMode : String
  EvaluationStatus : String
  deriving DecidableEq, Repr

structure Arrival where
  PickID : String
  Phase : String
  Azimuth : ℚ
  Distance : ℚ
  TimeResidual : ℚ
  TimeWeight : ℚ
  Pick : Option Pick
  deriving DecidableEq, Repr

structure Mag where
  Value : ℚ
  Uncertainty : ℚ
  deriving DecidableEq, Repr

structure Magnitude where
  PublicID : String
  Mag : Mag
  «Type» : String
  MethodID : String
  StationCount : Int
  deriving DecidableEq, Repr

/-- In SeisCompML magnitudes are nested under the origin that computed
them. -/
structure Origin where
  PublicID : String
  Time : TimeValue
  Arrivals : List Arrival
  M : List Magnitude
  deriving DecidableEq, Repr

structure Event where
  PreferredOriginID : String
  PreferredMagnitudeID : String
  PreferredOrigin : Option Origin
  PreferredMagnitude : Option Magnitude
  Picks : GoMap Pick
  Origins : GoMap Origin
  Magnitudes : GoMap Magnitude
  O : List Origin
  M : List Magnitude
  P : List Pick
  deriving DecidableEq, Repr

/-- In SeisCompML origins and picks sit beside the event, not under it. -/
structure EventParameters where
  Event : Event
  O : List Origin
  P : List Pick
  deriving DecidableEq, Repr

structure Seiscomp where
  EventParameters : EventParameters
  deriving DecidableEq, Repr

/-- The Go zero value of `Event`. -/
def zeroEvent : Event :=
  { PreferredOriginID := "", PreferredMagnitudeID := "",
    PreferredOrigin := none, PreferredMagnitude := none,
    Picks := [], Origins := [], Magnitudes := [], O := [], M := [], P := [] }

/-- The row the `ArrivalMap` loop body builds for one arrival, given the
`Pick` the dereference `a.Pick` yields. -/
def arrivalRow (ot : TimeValue) (a : Arrival) (p : Pick) : GoMap String :=
  buildMap [("NetworkCode", p.WaveformID.NetworkCode),
    ("StationCode", p.WaveformID.StationCode),
    ("ChannelCode", p.WaveformID.ChannelCode),
    ("LocationCode", p.WaveformID.LocationCode),
    ("Phase", a.Phase),
    ("PhaseTime", p.Time.Value.formatRFC3339Nano),
    ("PhaseOriginOffset", fmtF6 (p.Time.Value.subSeconds ot.Value)),
    ("TimeResidual", fmtF6 a.TimeResidual),
    ("TimeWeight", fmtF6 a.TimeWeight)]

/-- The `ArrivalMap` loop: the `Pick` pointer of every arrival is dereferenced
unconditionally; `none` models the nil dereference panic. -/
def arrivalMapLoop (ot : TimeValue) : List Arrival → Option (List (GoMap String))
  | [] => some []
  | a :: rest =>
    match a.Pick with
    | none => none
    | some p => (arrivalMapLoop ot rest).map (fun t => arrivalRow ot a p :: t)

/-- Method `Origin.ArrivalMap` remaps the Arrival information for user selectable
output (source: seiscompml07.go). -/
def Origin.ArrivalMap (o : Origin) : Option (List (GoMap String)) :=
  arrivalMapLoop o.Time o.Arrivals

/-- The document `init` produces once the preferred-origin reference resolved
to `po`: origins and picks copied up to the event, origin-nested magnitudes
flattened, maps built, preferred references looked up, and the preferred
origin arrivals linked to their picks (see `quakeml12.linkPreferred` on the
in-place linking). -/
def linkPreferred (s : Seiscomp) (po : Origin) : Seiscomp :=
  let e := s.EventParameters.Event
  let eP := s.EventParameters.P
  let eO := s.EventParameters.O
  let eM := eO.foldl (fun acc o => acc ++ o.M) []
  let origins := buildMap (eO.map fun o => (o.PublicID, o))
  let magnitudes := buildMap (eM.map fun m => (m.PublicID, m))
  let picks := buildMap (eP.map fun p => (p.PublicID, p))
  let po' := { po with
    Arrivals := po.Arrivals.map fun a => { a with Pick := mapLookup picks a.PickID } }
  { s with EventParameters := { s.EventParameters with Event := { e with
      P := eP,
      O := eO.map (fun o => if o.PublicID = e.PreferredOriginID then po' else o),
      M := eM,
      Origins := mapInsert origins po'.PublicID po',
      Magnitudes := magnitudes,
      Picks := picks,
      PreferredOrigin := some po',
      PreferredMagnitude := mapLookup magnitudes e.PreferredMagnitudeID } } }

/-- Method `Seiscomp.init` performs initialisation (entity linking) on the decoded
SeisCompML: copies origins/picks up to the event, flattens origin-nested
magnitudes into one collection, then links (source: seiscompml07.go). -/
def Seiscomp.init (q : Seiscomp) : InitResult Seiscomp :=
  let e := q.EventParameters.Event
  if e.PreferredOriginID = "" then .err "Empty PreferredOriginID"
  else if e.PreferredMagnitudeID = "" then .err "Empty PreferredMagnitudeID"
  else if q.EventParameters.O.length = 0 then .err "Found no origins"
  else
    let eO := q.EventParameters.O
    let eM := eO.foldl (fun acc o => acc ++ o.M) []
    if eM.length = 0 then .err "Found no magnitudes"
    else
      let origins := buildMap (eO.map fun o => (o.PublicID, o))
      match mapLookup origins e.PreferredOriginID with
      | none =>
        -- the arrival loop ranges over `e.PreferredOrigin.Arrivals`; with a
        -- nil preferred origin that dereference panics
        .crash
      | some po => .ok (linkPreferred q po)

/-- Function `unmarshal`: decode then link.  The argument is what `xml.Unmarshal`
yields on the body. -/
def unmarshal (b : Except String Seiscomp) : PanicOr (Event × Option String) :=
  match b with
  | .error msg => .ok (zeroEvent, some msg)
  | .ok q =>
    match q.init with
    | .crash => .crash
    | .err msg => .ok (q.EventParameters.Event, some msg)
    | .ok q' => .ok (q'.EventParameters.Event, none)

/-- Struct `result` is used for passing variables on the processing pipeline
(source: seiscompml07.go). -/
structure Result where
  event : Event
  publicID : String
  err : Option String
  deriving DecidableEq, Repr

/-- The body of one `fetcher` loop iteration for one event id (source:
seiscompml07.go).  As in quakeml12, `defer r.Body.Close()` runs before the
transport error is checked, so a transport error panics. -/
def fetchStep (publicid : String) (w : Wire Seiscomp) : PanicOr Result :=
  match w with
  | .transportError _ => .crash
  | .response status readErr body =>
    match readErr with
    | some msg => .ok { event := zeroEvent, publicID := publicid, err := some msg }
    | none =>
      if status ≠ 200 then
        .ok { event := zeroEvent, publicID := publicid,
              err := some ("Non 200 response code: " ++ toString status) }
      else
        match unmarshal body with
        | .crash => .crash
        | .ok (e, err) => .ok { event := e, publicID := publicid, err := err }

/-- The aggregation loop of `Get`, linearized over the event ids (source:
seiscompml07.go). -/
def GetLoop (tr : String → Wire Seiscomp) :
    List String → GoMap Event → PanicOr (GoMap Event)
  | [], m => .ok m
  | id :: rest, m =>
    match fetchStep id (tr id) with
    | .crash => .crash
    | .ok r =>
      GetLoop tr rest
        (match r.err with
          | some _ => m
          | none => mapInsert m r.publicID r.event)

/-- Function `Get` retrieves SeisCompML for each EventID; errors are logged but not
returned. -/
def Get (tr : String → Wire Seiscomp) (ids : List String) : PanicOr (GoMap Event) :=
  GetLoop tr ids []

end seiscompml07

namespace wfs

/-- The body of one wfs `fetcher` loop iteration for one URL (source: wfs.go
lines 349-380).  Unlike the quakeml12/seiscompml07 fetchers, the body is
closed only when the transport succeeded, so every outcome — transport error
included — is emitted as a result. -/
def fetchStep (w : Wire (List Feature)) : Result :=
  match w with
  | .transportError msg => { features := [], err := some msg }
  | .response status readErr body =>
    match readErr with
    | some msg => { features := [], err := some msg }
    | none =>
      if status ≠ 200 then
        { features := [], err := some ("Non 200 response code: " ++ toString status) }
      else
        match body with
        | .error msg => { features := [], err := some msg }
        | .ok fs => { features := fs, err := none }

end wfs

/-! ## Derived notions used by the theorems -/

/-- Iterated application of `AddDate(1, 0, 0)`: the instant "`t` plus `n`
years" as the chunking loop steps it. -/
def iterAddYear (t : DateTime) : Nat → DateTime
  | 0 => t
  | n + 1 => (iterAddYear t n).addYears 1

/-- The chunk sequence spec §4.2 describes for a query spanning `Y` year
boundaries: for `i < Y` a chunk `[start+i years, start+i+1 years]`, then a
final chunk `[start+Y years, end]`. -/
def expectedChunks (q : wfs.Query) (Y : Nat) : List wfs.Query :=
  (List.range Y).map (fun i =>
    { q with Start := iterAddYear q.Start i, End := iterAddYear q.Start (i + 1) }) ++
  [{ q with Start := iterAddYear q.Start Y, End := q.End }]

/-- The row `ArrivalMap` produces for an arrival whose pick resolved (and `[]`
for one that did not — that case never contributes to an `ArrivalMap`
output). -/
def quakeml12.arrivalRowOf (ot : quakeml12.TimeValue) (a : quakeml12.Arrival) : GoMap String :=
  match a.Pick with
  | some p => quakeml12.arrivalRow ot a p
  | none => []

/-- See `quakeml12.arrivalRowOf`. -/
def seiscompml07.arrivalRowOf (ot : seiscompml07.TimeValue) (a : seiscompml07.Arrival) : GoMap String :=
  match a.Pick with
  | some p => seiscompml07.arrivalRow ot a p
  | none => []

/-- An event id succeeds in tolerant mode when its fetch emits a result whose
error is nil. -/
def quakeml12.succeeds (tr : String → Wire quakeml12.Quakeml) (id : String) : Bool :=
  match quakeml12.fetchStep id (tr id) with
  | .ok r => r.err.isNone
  | .crash => false

/-! ## Concrete instances for witnesses and counterexamples -/

/-- Instant 2014-01-27T03:06:25Z (the start time of the conformance test `TestURL`). -/
def tS : DateTime := ⟨2014, 1, 27, 3, 6, 25, 0⟩

/-- Instant 2014-01-27T04:06:25Z (the end time of the conformance test `TestURL`). -/
def tE : DateTime := ⟨2014, 1, 27, 4, 6, 25, 0⟩

/-- The unfiltered time-window query of `TestURL`. -/
def qTW : wfs.Query := ⟨"", tS, tE, -999, wfs.magSentinel, ""⟩

/-- An identifier query also carrying a time range and filters. -/
def qID : wfs.Query := ⟨"2014p562279", tS, tE, 60, 6, "174,-41,175,-42"⟩

/-- The same identifier with every other field different. -/
def qID2 : wfs.Query := ⟨"2014p562279", tE, tS, -999, wfs.magSentinel, ""⟩

/-- A two-year-span time-window query (2012 → 2014). -/
def qSpan : wfs.Query := ⟨"", ⟨2012, 1, 27, 3, 6, 25, 0⟩, tE, 30, 5, "174,-41,175,-42"⟩

/-- A WFS feature with only its `PublicID` distinguished. -/
def featA : wfs.Feature :=
  ⟨⟨"2014p549333", "", "", "", 0, 0, 0, 0, "", "", "", "", "", 0, 0, 0, 0, 0, "", 0, 0⟩⟩

/-- A successful worker result carrying one feature. -/
def resOk : wfs.Result := ⟨[featA], none⟩

/-- A failed worker result. -/
def resErr : wfs.Result := ⟨[], some "Non 200 response code: 503"⟩

/-- A pick, an arrival resolving to it, and one that does not resolve. -/
def pickW : quakeml12.Pick :=
  ⟨"pk1", ⟨⟨2012, 1, 27, 4, 6, 29, 798393000⟩, 0⟩, ⟨"NZ", "WVZ", "10", "HHZ"⟩, "P", "automatic", ""⟩

def arrResolved : quakeml12.Arrival :=
  ⟨"pk1", "P", 302, 1, 0, 2, some pickW⟩

def arrDangling : quakeml12.Arrival :=
  ⟨"pk-missing", "S", 0, 0, 0, 0, none⟩

/-- An origin all of whose arrivals resolved. -/
def orResolved : quakeml12.Origin :=
  ⟨"o1", ⟨⟨2012, 1, 27, 4, 6, 25, 369465000⟩, 0⟩, [arrResolved]⟩

/-- An origin with a dangling arrival pick reference. -/
def orDangling : quakeml12.Origin :=
  ⟨"o1", ⟨⟨2012, 1, 27, 4, 6, 25, 369465000⟩, 0⟩, [arrResolved, arrDangling]⟩

def pickWS : seiscompml07.Pick :=
  ⟨"pk1", ⟨⟨2012, 1, 27, 4, 6, 29, 798393000⟩, 0⟩, ⟨"NZ", "WVZ", "10", "HHZ"⟩, "P", "automatic", ""⟩

def arrResolvedS : seiscompml07.Arrival := ⟨"pk1", "P", 0, 0, 0, 0, some pickWS⟩

def arrDanglingS : seiscompml07.Arrival := ⟨"pk-missing", "S", 0, 0, 0, 0, none⟩

def orResolvedS : seiscompml07.Origin :=
  ⟨"o1", ⟨⟨2012, 1, 27, 4, 6, 25, 369465000⟩, 0⟩, [arrResolvedS], []⟩

def orDanglingS : seiscompml07.Origin :=
  ⟨"o1", ⟨⟨2012, 1, 27, 4, 6, 25, 369465000⟩, 0⟩, [arrResolvedS, arrDanglingS], []⟩

/-- A magnitude with id `m1`. -/
def magM1 : quakeml12.Magnitude := ⟨"m1", ⟨3, 0⟩, "M", "weighted average", 7⟩

/-- A decoded document that passes all four completeness checks but whose
preferred-origin id (`o-missing`) is not the id of any decoded origin. -/
def qmlPrefGap : quakeml12.Quakeml :=
  ⟨⟨{ PreferredOriginID := "o-missing", PreferredMagnitudeID := "m1",
      O := [orResolved], M := [magM1], P := [pickW],
      Origins := [], Picks := [], Magnitudes := [],
      PreferredOrigin := none, PreferredMagnitude := none }⟩⟩

/-- A decoded document that links successfully; its preferred-magnitude id and
the arrival pick id are dangling, exercising the permissive branches. -/
def qmlPermissive : quakeml12.Quakeml :=
  ⟨⟨{ PreferredOriginID := "o1", PreferredMagnitudeID := "m-missing",
      O := [orDangling], M := [magM1], P := [],
      Origins := [], Picks := [], Magnitudes := [],
      PreferredOrigin := none, PreferredMagnitude := none }⟩⟩

/-- A well-formed document that links without error. -/
def qmlGood : quakeml12.Quakeml :=
  ⟨⟨{ PreferredOriginID := "o1", PreferredMagnitudeID := "m1",
      O := [orResolved], M := [magM1], P := [pickW],
      Origins := [], Picks := [], Magnitudes := [],
      PreferredOrigin := none, PreferredMagnitude := none }⟩⟩

/-- A wire in which event id `a` hits a transport error and every other id
returns a well-formed 200 response. -/
def trCrash : String → Wire quakeml12.Quakeml := fun id =>
  if id = "a" then .transportError "connection refused" else .response 200 none (.ok qmlGood)

/-- A wire in which event id `b` gets a 404 and every other id a well-formed
200 response. -/
def trMixed : String → Wire quakeml12.Quakeml := fun id =>
  if id = "b" then .response 404 none (.error "unreachable body") else .response 200 none (.ok qmlGood)

/-! ## Theorems -/

/-- Claim C8: for every query with a non-empty `EventID` the built request is
the base endpoint plus only the `publicid` equality filter; all other fields
(start, end, phase count, magnitude, bounding box) are ignored even when
set. -/
theorem claim8_eventid_mode (q q' : wfs.Query) (h : q.EventID ≠ "")
    (hsame : q'.EventID = q.EventID) :
    q.url = wfs.wfsUrl ++ ("&cql_filter=publicid==\x27" ++ q.EventID ++ "\x27") ∧
    q'.url = q.url := by
  have h' : q'.EventID ≠ "" := by rw [hsame]; exact h
  constructor
  · simp [wfs.Query.url, if_pos h, ← String.append_assoc]
  · simp [wfs.Query.url, if_pos h, if_pos h', hsame]

theorem claim8_witness :
    qID.EventID ≠ "" ∧ qID2.EventID = qID.EventID ∧
      (qID.url =
        wfs.wfsUrl ++ ("&cql_filter=publicid==\x272014p562279\x27") ∧ qID2.url = qID.url) :=
  ⟨by decide, rfl, claim8_eventid_mode qID qID2 (by decide) rfl⟩

/-- Claim C3: for every time-window query (empty `EventID`) the built request
equals the fixed base endpoint followed by the §4.1 clause sequence joined
with `+AND+`: inclusive origintime bounds rendered to second precision with
no zone designator, then `usedphasecount>=` iff the phase-count sentinel -999
is overridden, then `magnitude>=` iff the magnitude sentinel -999.9 is
overridden, then the BBOX clause iff the box string is non-empty. -/
theorem claim3_timewindow_url (q : wfs.Query) (h : q.EventID = "") :
    q.url = wfs.urlSpec q := by
  have h0 : ¬ (q.EventID ≠ "") := by simp [h]
  by_cases hp : q.MinUsedPhaseCount ≠ -999 <;>
    by_cases hm : q.MinMagnitude ≠ wfs.magSentinel <;>
      by_cases hb : q.Bbox ≠ "" <;>
        simp [wfs.Query.url, wfs.urlSpec, wfs.timeWindowClauses, wfs.joinAND, h0, hp, hm, hb] <;>
        simp only [String.append_assoc] <;>
        simp [← String.append_assoc]

set_option maxRecDepth 4000 in
theorem claim3_witness :
    qTW.EventID = "" ∧ qTW.url = wfs.urlSpec qTW ∧
      qTW.url = wfs.wfsUrl ++
        "&cql_filter=origintime>=\x272014-01-27T03:06:25\x27+AND+origintime<=\x272014-01-27T04:06:25\x27" :=
  ⟨rfl, claim3_timewindow_url qTW rfl, by decide⟩

/-- The strict aggregation loop returns the first error it meets, whatever the
accumulated map and the remaining stream. -/
theorem searchLoop_error_of_clean_head (r : wfs.Result) (e : String) (he : r.err = some e) :
    ∀ (pre post : List wfs.Result) (res : GoMap wfs.Feature),
      (∀ x ∈ pre, x.err = none) → wfs.searchLoop (pre ++ r :: post) res = .error e := by
  intro pre
  induction pre with
  | nil => intro post res _; simp [wfs.searchLoop, he]
  | cons x xs ih =>
    intro post res hpre
    have hx : x.err = none := hpre x (by simp)
    simp only [List.cons_append, wfs.searchLoop, hx]
    exact ih post _ (fun y hy => hpre y (by simp [hy]))

/-- Claim C2: in strict mode the first worker result carrying an error aborts
the whole operation — whatever results precede it succeeded and whatever
follows it, `search` returns exactly that error (Go returns `nil, err`, i.e.
no partial collection reaches the caller). -/
theorem claim2_strict_first_error (pre post : List wfs.Result) (r : wfs.Result) (e : String)
    (hpre : ∀ x ∈ pre, x.err = none) (he : r.err = some e) :
    wfs.search (pre ++ r :: post) = .error e :=
  searchLoop_error_of_clean_head r e he pre post [] hpre

theorem claim2_witness :
    (∀ x ∈ [resOk], x.err = none) ∧ resErr.err = some "Non 200 response code: 503" ∧
      wfs.search ([resOk] ++ resErr :: [resOk]) = .error "Non 200 response code: 503" :=
  ⟨fun x hx => by
      rw [List.mem_singleton] at hx
      subst hx
      rfl,
   rfl,
   claim2_strict_first_error [resOk] [resOk] resErr _
     (fun x hx => by
       rw [List.mem_singleton] at hx
       subst hx
       rfl) rfl⟩

/-- Exactly when `quakeml12.init` reports each of its four completeness
errors, priority-ordered. -/
theorem quakeml_init_err_iff (q : quakeml12.Quakeml) :
    (q.init = .err "Empty PreferredOriginID" ↔
      q.EventParameters.Event.PreferredOriginID = "") ∧
    (q.init = .err "Empty PreferredMagnitudeID" ↔
      ¬q.EventParameters.Event.PreferredOriginID = "" ∧
        q.EventParameters.Event.PreferredMagnitudeID = "") ∧
    (q.init = .err "Found no origins" ↔
      ¬q.EventParameters.Event.PreferredOriginID = "" ∧
        ¬q.EventParameters.Event.PreferredMagnitudeID = "" ∧
        q.EventParameters.Event.O = []) ∧
    (q.init = .err "Found no magnitudes" ↔
      ¬q.EventParameters.Event.PreferredOriginID = "" ∧
        ¬q.EventParameters.Event.PreferredMagnitudeID = "" ∧
        ¬q.EventParameters.Event.O = [] ∧
        q.EventParameters.Event.M = []) ∧
    ((∃ m, q.init = .err m) ↔
      q.EventParameters.Event.PreferredOriginID = "" ∨
        q.EventParameters.Event.PreferredMagnitudeID = "" ∨
        q.EventParameters.Event.O = [] ∨
        q.EventParameters.Event.M = []) := by
  by_cases c1 : q.EventParameters.Event.PreferredOriginID = ""
  · simp [quakeml12.Quakeml.init, c1]
  · by_cases c2 : q.EventParameters.Event.PreferredMagnitudeID = ""
    · simp [quakeml12.Quakeml.init, c1, c2]
    · by_cases c3 : q.EventParameters.Event.O = []
      · simp [quakeml12.Quakeml.init, c1, c2, c3]
      · by_cases c4 : q.EventParameters.Event.M = []
        · simp [quakeml12.Quakeml.init, c1, c2, c3, c4, List.length_eq_zero]
        · rcases hL : mapLookup
              (buildMap (q.EventParameters.Event.O.map fun o => (o.PublicID, o)))
              q.EventParameters.Event.PreferredOriginID with _ | po <;>
            simp [quakeml12.Quakeml.init, c1, c2, c3, c4, List.length_eq_zero, hL]

/-- Exactly when `seiscompml07.init` reports each of its four completeness
errors, priority-ordered; the magnitude condition is on the flattened
origin-nested collection. -/
theorem seiscomp_init_err_iff (s : seiscompml07.Seiscomp) :
    (s.init = .err "Empty PreferredOriginID" ↔
      s.EventParameters.Event.PreferredOriginID = "") ∧
    (s.init = .err "Empty PreferredMagnitudeID" ↔
      ¬s.EventParameters.Event.PreferredOriginID = "" ∧
        s.EventParameters.Event.PreferredMagnitudeID = "") ∧
    (s.init = .err "Found no origins" ↔
      ¬s.EventParameters.Event.PreferredOriginID = "" ∧
        ¬s.EventParameters.Event.PreferredMagnitudeID = "" ∧
        s.EventParameters.O = []) ∧
    (s.init = .err "Found no magnitudes" ↔
      ¬s.EventParameters.Event.PreferredOriginID = "" ∧
        ¬s.EventParameters.Event.PreferredMagnitudeID = "" ∧
        ¬s.EventParameters.O = [] ∧
        s.EventParameters.O.foldl (fun acc o => acc ++ o.M) [] = []) ∧
    ((∃ m, s.init = .err m) ↔
      s.EventParameters.Event.PreferredOriginID = "" ∨
        s.EventParameters.Event.PreferredMagnitudeID = "" ∨
        s.EventParameters.O = [] ∨
        s.EventParameters.O.foldl (fun acc o => acc ++ o.M) [] = []) := by
  by_cases c1 : s.EventParameters.Event.PreferredOriginID = ""
  · simp [seiscompml07.Seiscomp.init, c1]
  · by_cases c2 : s.EventParameters.Event.PreferredMagnitudeID = ""
    · simp [seiscompml07.Seiscomp.init, c1, c2]
    · by_cases c3 : s.EventParameters.O = []
      · simp [seiscompml07.Seiscomp.init, c1, c2, c3]
      · by_cases c4 : s.EventParameters.O.foldl (fun acc o => acc ++ o.M) [] = []
        · simp [seiscompml07.Seiscomp.init, c1, c2, c3, c4, List.length_eq_zero]
        · rcases hL : mapLookup
              (buildMap (s.EventParameters.O.map fun o => (o.PublicID, o)))
              s.EventParameters.Event.PreferredOriginID with _ | po <;>
            simp [seiscompml07.Seiscomp.init, c1, c2, c3, c4, List.length_eq_zero, hL]

/-- Claim C6: for every decoded document (either dialect), the linking step
fails with an `IncompleteDocument` error exactly when one of its four
conditions holds — empty preferred-origin id, empty preferred-magnitude id,
no origins, or (after flattening origin-nested magnitudes, for the dialect
that nests them) no magnitudes — and the first violation in that order is the
one reported. -/
theorem claim6_incomplete_document (q : quakeml12.Quakeml) (s : seiscompml07.Seiscomp) :
    ((q.init = .err "Empty PreferredOriginID" ↔
        q.EventParameters.Event.PreferredOriginID = "") ∧
      (q.init = .err "Empty PreferredMagnitudeID" ↔
        ¬q.EventParameters.Event.PreferredOriginID = "" ∧
          q.EventParameters.Event.PreferredMagnitudeID = "") ∧
      (q.init = .err "Found no origins" ↔
        ¬q.EventParameters.Event.PreferredOriginID = "" ∧
          ¬q.EventParameters.Event.PreferredMagnitudeID = "" ∧
          q.EventParameters.Event.O = []) ∧
      (q.init = .err "Found no magnitudes" ↔
        ¬q.EventParameters.Event.PreferredOriginID = "" ∧
          ¬q.EventParameters.Event.PreferredMagnitudeID = "" ∧
          ¬q.EventParameters.Event.O = [] ∧
          q.EventParameters.Event.M = []) ∧
      ((∃ m, q.init = .err m) ↔
        q.EventParameters.Event.PreferredOriginID = "" ∨
          q.EventParameters.Event.PreferredMagnitudeID = "" ∨
          q.EventParameters.Event.O = [] ∨
          q.EventParameters.Event.M = [])) ∧
    ((s.init = .err "Empty PreferredOriginID" ↔
        s.EventParameters.Event.PreferredOriginID = "") ∧
      (s.init = .err "Empty PreferredMagnitudeID" ↔
        ¬s.EventParameters.Event.PreferredOriginID = "" ∧
          s.EventParameters.Event.PreferredMagnitudeID = "") ∧
      (s.init = .err "Found no origins" ↔
        ¬s.EventParameters.Event.PreferredOriginID = "" ∧
          ¬s.EventParameters.Event.PreferredMagnitudeID = "" ∧
          s.EventParameters.O = []) ∧
      (s.init = .err "Found no magnitudes" ↔
        ¬s.EventParameters.Event.PreferredOriginID = "" ∧
          ¬s.EventParameters.Event.PreferredMagnitudeID = "" ∧
          ¬s.EventParameters.O = [] ∧
          s.EventParameters.O.foldl (fun acc o => acc ++ o.M) [] = []) ∧
      ((∃ m, s.init = .err m) ↔
        s.EventParameters.Event.PreferredOriginID = "" ∨
          s.EventParameters.Event.PreferredMagnitudeID = "" ∨
          s.EventParameters.O = [] ∨
          s.EventParameters.O.foldl (fun acc o => acc ++ o.M) [] = [])) :=
  ⟨quakeml_init_err_iff q, seiscomp_init_err_iff s⟩

/-- Claim C1 counterexample: `qmlPrefGap` passes all four completeness checks,
yet linking does not return success — resolving its preferred-origin id finds
nothing and the arrival-linking loop dereferences the nil preferred origin
(runtime panic), contradicting "the entity-linking step always returns
success" with an absent relationship. -/
theorem claim1_counterexample :
    (qmlPrefGap.EventParameters.Event.PreferredOriginID ≠ "" ∧
      qmlPrefGap.EventParameters.Event.PreferredMagnitudeID ≠ "" ∧
      qmlPrefGap.EventParameters.Event.O ≠ [] ∧
      qmlPrefGap.EventParameters.Event.M ≠ []) ∧
    qmlPrefGap.init = .crash :=
  ⟨⟨by decide, by decide, by decide, by decide⟩, rfl⟩

/-- Claim C1 (amended): for a decoded document that passes the four
completeness checks AND whose preferred-origin id resolves in the origin map,
linking always returns success; an unresolved preferred-magnitude reference
and unresolved arrival pick-id references yield absent (`none`) relationships
rather than a failure.  (An unresolved preferred-origin reference instead
crashes the linking step — see the counterexample.) -/
theorem claim1_amended_permissive_linking :
    (∀ (q : quakeml12.Quakeml) (po : quakeml12.Origin),
      q.EventParameters.Event.PreferredOriginID ≠ "" →
      q.EventParameters.Event.PreferredMagnitudeID ≠ "" →
      q.EventParameters.Event.O ≠ [] →
      q.EventParameters.Event.M ≠ [] →
      mapLookup (buildMap (q.EventParameters.Event.O.map fun o => (o.PublicID, o)))
        q.EventParameters.Event.PreferredOriginID = some po →
      q.init = .ok (quakeml12.linkPreferred q po) ∧
        (quakeml12.linkPreferred q po).EventParameters.Event.PreferredOrigin = some { po with
          Arrivals := po.Arrivals.map fun a => { a with
            Pick := mapLookup
              (buildMap (q.EventParameters.Event.P.map fun p => (p.PublicID, p))) a.PickID } } ∧
        (quakeml12.linkPreferred q po).EventParameters.Event.PreferredMagnitude = mapLookup
          (buildMap (q.EventParameters.Event.M.map fun m => (m.PublicID, m)))
          q.EventParameters.Event.PreferredMagnitudeID) ∧
    (∀ (s : seiscompml07.Seiscomp) (po : seiscompml07.Origin),
      s.EventParameters.Event.PreferredOriginID ≠ "" →
      s.EventParameters.Event.PreferredMagnitudeID ≠ "" →
      s.EventParameters.O ≠ [] →
      s.EventParameters.O.foldl (fun acc o => acc ++ o.M) [] ≠ [] →
      mapLookup (buildMap (s.EventParameters.O.map fun o => (o.PublicID, o)))
        s.EventParameters.Event.PreferredOriginID = some po →
      s.init = .ok (seiscompml07.linkPreferred s po) ∧
        (seiscompml07.linkPreferred s po).EventParameters.Event.PreferredOrigin = some { po with
          Arrivals := po.Arrivals.map fun a => { a with
            Pick := mapLookup
              (buildMap (s.EventParameters.P.map fun p => (p.PublicID, p))) a.PickID } } ∧
        (seiscompml07.linkPreferred s po).EventParameters.Event.PreferredMagnitude = mapLookup
          (buildMap ((s.EventParameters.O.foldl (fun acc o => acc ++ o.M) []).map
            fun m => (m.PublicID, m)))
          s.EventParameters.Event.PreferredMagnitudeID) := by
  constructor
  · intro q po h1 h2 h3 h4 hpo
    refine ⟨?_, rfl, rfl⟩
    simp [quakeml12.Quakeml.init, h1, h2, h3, h4, List.length_eq_zero, hpo]
  · intro s po h1 h2 h3 h4 hpo
    refine ⟨?_, rfl, rfl⟩
    simp [seiscompml07.Seiscomp.init, h1, h2, h3, h4, List.length_eq_zero, hpo]

theorem claim1_witness :
    (qmlPermissive.EventParameters.Event.PreferredOriginID ≠ "" ∧
      qmlPermissive.EventParameters.Event.PreferredMagnitudeID ≠ "" ∧
      qmlPermissive.EventParameters.Event.O ≠ [] ∧
      qmlPermissive.EventParameters.Event.M ≠ [] ∧
      mapLookup (buildMap (qmlPermissive.EventParameters.Event.O.map fun o => (o.PublicID, o)))
        qmlPermissive.EventParameters.Event.PreferredOriginID = some orDangling) ∧
    (qmlPermissive.init = .ok (quakeml12.linkPreferred qmlPermissive orDangling) ∧
      (quakeml12.linkPreferred qmlPermissive orDangling).EventParameters.Event.PreferredOrigin =
        some { orDangling with
          Arrivals := orDangling.Arrivals.map fun a => { a with
            Pick := mapLookup
              (buildMap (qmlPermissive.EventParameters.Event.P.map fun p => (p.PublicID, p)))
              a.PickID } } ∧
      (quakeml12.linkPreferred qmlPermissive orDangling).EventParameters.Event.PreferredMagnitude =
        mapLookup
          (buildMap (qmlPermissive.EventParameters.Event.M.map fun m => (m.PublicID, m)))
          qmlPermissive.EventParameters.Event.PreferredMagnitudeID) ∧
    mapLookup (buildMap (qmlPermissive.EventParameters.Event.M.map fun m => (m.PublicID, m)))
      qmlPermissive.EventParameters.Event.PreferredMagnitudeID = none :=
  ⟨⟨by decide, by decide, by decide, by decide, rfl⟩,
   claim1_amended_permissive_linking.1 qmlPermissive orDangling
     (by decide) (by decide) (by decide) (by decide) rfl,
   rfl⟩

/-- A resolved-pick arrival row never depends on missing data; the helper
lemma: when every arrival pick is present, the loop succeeds with one row per
arrival in order. -/
theorem quakeml_arrivalMapLoop_total (ot : quakeml12.TimeValue) (l : List quakeml12.Arrival)
    (h : ∀ a ∈ l, a.Pick ≠ none) :
    quakeml12.arrivalMapLoop ot l = some (l.map (quakeml12.arrivalRowOf ot)) := by
  induction l with
  | nil => rfl
  | cons a t ih =>
    rcases hp : a.Pick with _ | p
    · exact absurd hp (h a (by simp))
    · simp [quakeml12.arrivalMapLoop, hp, ih (fun x hx => h x (by simp [hx])),
        quakeml12.arrivalRowOf]

/-- When some arrival pick is absent, the loop panics (`none`). -/
theorem quakeml_arrivalMapLoop_none (ot : quakeml12.TimeValue) (l : List quakeml12.Arrival)
    (a : quakeml12.Arrival) (ha : a ∈ l) (hp : a.Pick = none) :
    quakeml12.arrivalMapLoop ot l = none := by
  induction l with
  | nil => cases ha
  | cons b t ih =>
    rcases List.mem_cons.mp ha with rfl | hmem
    · simp [quakeml12.arrivalMapLoop, hp]
    · rcases hb : b.Pick with _ | p
      · simp [quakeml12.arrivalMapLoop, hb]
      · simp [quakeml12.arrivalMapLoop, hb, ih hmem]

/-- See `quakeml_arrivalMapLoop_total`. -/
theorem seiscomp_arrivalMapLoop_total (ot : seiscompml07.TimeValue)
    (l : List seiscompml07.Arrival) (h : ∀ a ∈ l, a.Pick ≠ none) :
    seiscompml07.arrivalMapLoop ot l = some (l.map (seiscompml07.arrivalRowOf ot)) := by
  induction l with
  | nil => rfl
  | cons a t ih =>
    rcases hp : a.Pick with _ | p
    · exact absurd hp (h a (by simp))
    · simp [seiscompml07.arrivalMapLoop, hp, ih (fun x hx => h x (by simp [hx])),
        seiscompml07.arrivalRowOf]

/-- See `quakeml_arrivalMapLoop_none`. -/
theorem seiscomp_arrivalMapLoop_none (ot : seiscompml07.TimeValue)
    (l : List seiscompml07.Arrival) (a : seiscompml07.Arrival) (ha : a ∈ l)
    (hp : a.Pick = none) :
    seiscompml07.arrivalMapLoop ot l = none := by
  induction l with
  | nil => cases ha
  | cons b t ih =>
    rcases List.mem_cons.mp ha with rfl | hmem
    · simp [seiscompml07.arrivalMapLoop, hp]
    · rcases hb : b.Pick with _ | p
      · simp [seiscompml07.arrivalMapLoop, hb]
      · simp [seiscompml07.arrivalMapLoop, hb, ih hmem]

/-- Claim C10: `ArrivalMap` (both dialects) dereferences each resolved
arrival `Pick` unconditionally — when every arrival pick is present it
yields exactly one field-to-string row per arrival in received order, but an
origin containing an arrival whose pick is absent makes the operation
undefined (nil dereference, modelled `none`) instead of emitting absent field
values. -/
theorem claim10_arrivalmap_deref (o₁ : quakeml12.Origin) (o₂ : seiscompml07.Origin) :
    ((∀ a ∈ o₁.Arrivals, a.Pick ≠ none) →
      o₁.ArrivalMap = some (o₁.Arrivals.map (quakeml12.arrivalRowOf o₁.Time))) ∧
    (∀ a ∈ o₁.Arrivals, a.Pick = none → o₁.ArrivalMap = none) ∧
    ((∀ a ∈ o₂.Arrivals, a.Pick ≠ none) →
      o₂.ArrivalMap = some (o₂.Arrivals.map (seiscompml07.arrivalRowOf o₂.Time))) ∧
    (∀ a ∈ o₂.Arrivals, a.Pick = none → o₂.ArrivalMap = none) :=
  ⟨fun h => quakeml_arrivalMapLoop_total o₁.Time o₁.Arrivals h,
   fun a ha hp => quakeml_arrivalMapLoop_none o₁.Time o₁.Arrivals a ha hp,
   fun h => seiscomp_arrivalMapLoop_total o₂.Time o₂.Arrivals h,
   fun a ha hp => seiscomp_arrivalMapLoop_none o₂.Time o₂.Arrivals a ha hp⟩

theorem claim10_witness :
    ((∀ a ∈ orResolved.Arrivals, a.Pick ≠ none) ∧
      arrDangling ∈ orDangling.Arrivals ∧ arrDangling.Pick = none ∧
      (∀ a ∈ orResolvedS.Arrivals, a.Pick ≠ none) ∧
      arrDanglingS ∈ orDanglingS.Arrivals ∧ arrDanglingS.Pick = none) ∧
    orResolved.ArrivalMap = some (orResolved.Arrivals.map (quakeml12.arrivalRowOf orResolved.Time)) ∧
    orDangling.ArrivalMap = none ∧
    orResolvedS.ArrivalMap =
      some (orResolvedS.Arrivals.map (seiscompml07.arrivalRowOf orResolvedS.Time)) ∧
    orDanglingS.ArrivalMap = none :=
  ⟨⟨by decide, by decide, rfl, by decide, by decide, rfl⟩,
   (claim10_arrivalmap_deref orResolved orResolvedS).1 (by decide),
   (claim10_arrivalmap_deref orDangling orDanglingS).2.1 arrDangling (by decide) rfl,
   (claim10_arrivalmap_deref orResolved orResolvedS).2.2.1 (by decide),
   (claim10_arrivalmap_deref orDangling orDanglingS).2.2.2 arrDanglingS (by decide) rfl⟩

/-- Claim C7: how each fetcher treats a delivered failure.  The wfs fetcher
surfaces a transport error and a non-200 status as failure results; the
quakeml12 (and seiscompml07) fetchers surface a non-200 status, but a
transport error leaves the response nil and the `defer r.Body.Close()`
issued before the error check dereferences it — the worker panics instead of
emitting the failure, contradicting the claim. -/
theorem claim7_fetcher_failures :
    quakeml12.fetchStep "2014p240753" (.transportError "connection refused") = .crash ∧
    seiscompml07.fetchStep "2014p240753" (.transportError "connection refused") = .crash ∧
    wfs.fetchStep (.transportError "connection refused") =
      { features := [], err := some "connection refused" } ∧
    quakeml12.fetchStep "2014p240753" (.response 503 none (.error "unread")) =
      .ok { event := quakeml12.zeroEvent, publicID := "2014p240753",
            err := some "Non 200 response code: 503" } ∧
    wfs.fetchStep (.response 503 none (.error "unread")) =
      { features := [], err := some "Non 200 response code: 503" } :=
  ⟨rfl, rfl, rfl, rfl, rfl⟩

/-- The chunking loop touches only `Start` and `End`: every emitted chunk and
the final loop state carry the other fields of the loop state unchanged. -/
theorem writeUrlsLoop_fields (n : Nat) : ∀ (a : wfs.Query),
    (∀ c ∈ (wfs.writeUrlsLoop a n).1,
      c.EventID = a.EventID ∧ c.MinUsedPhaseCount = a.MinUsedPhaseCount ∧
        c.MinMagnitude = a.MinMagnitude ∧ c.Bbox = a.Bbox) ∧
    ((wfs.writeUrlsLoop a n).2.EventID = a.EventID ∧
      (wfs.writeUrlsLoop a n).2.MinUsedPhaseCount = a.MinUsedPhaseCount ∧
      (wfs.writeUrlsLoop a n).2.MinMagnitude = a.MinMagnitude ∧
      (wfs.writeUrlsLoop a n).2.Bbox = a.Bbox) := by
  induction n with
  | zero => intro a; exact ⟨by simp [wfs.writeUrlsLoop], rfl, rfl, rfl, rfl⟩
  | succ n ih =>
    intro a
    constructor
    · intro c hc
      simp only [wfs.writeUrlsLoop, List.mem_cons] at hc
      rcases hc with rfl | hc
      · exact ⟨rfl, rfl, rfl, rfl⟩
      · simpa using (ih _).1 c hc
    · simpa using (ih _).2

/-- Claim C9: every sub-query the range chunker emits carries the original
query `EventID`, `MinUsedPhaseCount`, `MinMagnitude` and `Bbox` unchanged
(only `Start` and `End` differ; the chunker reads the input query through a
copy, so the input itself is a pure, unmutated argument of the embedding). -/
theorem claim9_chunks_frame (q c : wfs.Query) (hc : c ∈ q.chunks) :
    c.EventID = q.EventID ∧ c.MinUsedPhaseCount = q.MinUsedPhaseCount ∧
      c.MinMagnitude = q.MinMagnitude ∧ c.Bbox = q.Bbox := by
  unfold wfs.Query.chunks at hc
  by_cases h : q.End.year - q.Start.year > 0
  · rw [if_pos h] at hc
    rcases List.mem_append.mp hc with hmem | hmem
    · simpa using (writeUrlsLoop_fields _ { q with End := q.Start }).1 c hmem
    · rw [List.mem_singleton] at hmem
      subst hmem
      simpa using (writeUrlsLoop_fields _ { q with End := q.Start }).2
  · rw [if_neg h, List.mem_singleton] at hc
    subst hc
    exact ⟨rfl, rfl, rfl, rfl⟩

theorem claim9_witness :
    (⟨"", ⟨2012, 1, 27, 3, 6, 25, 0⟩, ⟨2013, 1, 27, 3, 6, 25, 0⟩, 30, 5, "174,-41,175,-42"⟩ :
        wfs.Query) ∈ qSpan.chunks ∧
      (⟨"", ⟨2012, 1, 27, 3, 6, 25, 0⟩, ⟨2013, 1, 27, 3, 6, 25, 0⟩, 30, 5, "174,-41,175,-42"⟩ :
          wfs.Query).EventID = qSpan.EventID ∧
      (⟨"", ⟨2012, 1, 27, 3, 6, 25, 0⟩, ⟨2013, 1, 27, 3, 6, 25, 0⟩, 30, 5, "174,-41,175,-42"⟩ :
          wfs.Query).MinUsedPhaseCount = qSpan.MinUsedPhaseCount ∧
      (⟨"", ⟨2012, 1, 27, 3, 6, 25, 0⟩, ⟨2013, 1, 27, 3, 6, 25, 0⟩, 30, 5, "174,-41,175,-42"⟩ :
          wfs.Query).MinMagnitude = qSpan.MinMagnitude ∧
      (⟨"", ⟨2012, 1, 27, 3, 6, 25, 0⟩, ⟨2013, 1, 27, 3, 6, 25, 0⟩, 30, 5, "174,-41,175,-42"⟩ :
          wfs.Query).Bbox = qSpan.Bbox := by
  have hm : (⟨"", ⟨2012, 1, 27, 3, 6, 25, 0⟩, ⟨2013, 1, 27, 3, 6, 25, 0⟩, 30, 5,
      "174,-41,175,-42"⟩ : wfs.Query) ∈ qSpan.chunks := by
    show _ ∈ wfs.Query.chunks qSpan
    rw [show wfs.Query.chunks qSpan = [⟨"", ⟨2012, 1, 27, 3, 6, 25, 0⟩,
      ⟨2013, 1, 27, 3, 6, 25, 0⟩, 30, 5, "174,-41,175,-42"⟩,
      ⟨"", ⟨2013, 1, 27, 3, 6, 25, 0⟩, ⟨2014, 1, 27, 3, 6, 25, 0⟩, 30, 5, "174,-41,175,-42"⟩,
      ⟨"", ⟨2014, 1, 27, 3, 6, 25, 0⟩, tE, 30, 5, "174,-41,175,-42"⟩] from rfl]
    exact List.mem_cons_self _ _
  exact ⟨hm, (claim9_chunks_frame qSpan _ hm).1, (claim9_chunks_frame qSpan _ hm).2.1,
    (claim9_chunks_frame qSpan _ hm).2.2.1, (claim9_chunks_frame qSpan _ hm).2.2.2⟩

theorem iterAddYear_shift (t : DateTime) (n : Nat) :
    iterAddYear (t.addYears 1) n = iterAddYear t (n + 1) := by
  induction n with
  | zero => rfl
  | succ n ih => simp only [iterAddYear, ih]

/-- Closed form of the chunking loop started from a state whose `End` equals
its `Start`: `n` chunks, the `i`-th covering the `i`-th iterated year step,
and a final state advanced `n` years. -/
theorem writeUrlsLoop_closed (n : Nat) : ∀ (a : wfs.Query), a.End = a.Start →
    wfs.writeUrlsLoop a n =
      ((List.range n).map (fun i =>
        { a with Start := iterAddYear a.Start i, End := iterAddYear a.Start (i + 1) }),
       { a with Start := iterAddYear a.Start n, End := iterAddYear a.Start n }) := by
  induction n with
  | zero =>
    intro a h
    obtain ⟨ev, s, e, pc, mm, bb⟩ := a
    cases h
    rfl
  | succ n ih =>
    intro a h
    obtain ⟨ev, s, e, pc, mm, bb⟩ := a
    cases h
    simp only [wfs.writeUrlsLoop]
    rw [ih ⟨ev, DateTime.addYears s 1, DateTime.addYears s 1, pc, mm, bb⟩ rfl]
    simp [List.range_succ_eq_map, List.map_map, Function.comp, iterAddYear_shift,
      iterAddYear]

/-- Claim C4: for a time-window query whose start is not after its end, with
`Y` the year difference, the chunker emits exactly `Y+1` sub-queries — the
`i`-th covering `[start+i years, start+i+1 years]` (iterated `AddDate`
steps) and the last covering `[start+Y years, end]` — and the end instant of
each chunk equals the start instant of the next (so adjoining chunks overlap
in at most that shared second). -/
theorem claim4_range_chunker (q : wfs.Query) (h : q.Start.after q.End = false) :
    q.chunks = expectedChunks q (q.End.year - q.Start.year).toNat ∧
    q.chunks.length = (q.End.year - q.Start.year).toNat + 1 ∧
    (∀ i, i + 1 < q.chunks.length →
      (q.chunks[i]?).map wfs.Query.End = (q.chunks[i + 1]?).map wfs.Query.Start) := by
  have hy : q.Start.year ≤ q.End.year := DateTime.year_le_of_not_after h
  have hEq : q.chunks = expectedChunks q (q.End.year - q.Start.year).toNat := by
    unfold wfs.Query.chunks expectedChunks
    by_cases hpos : q.End.year - q.Start.year > 0
    · rw [if_pos hpos]
      rw [writeUrlsLoop_closed _ { q with End := q.Start } rfl]
    · rw [if_neg hpos]
      have h0 : (q.End.year - q.Start.year).toNat = 0 := by omega
      rw [h0]
      simp [iterAddYear]
  have hLen : q.chunks.length = (q.End.year - q.Start.year).toNat + 1 := by
    rw [hEq]; simp [expectedChunks]
  refine ⟨hEq, hLen, ?_⟩
  intro i h1
  rw [hLen] at h1
  rw [hEq]
  unfold expectedChunks
  rcases Nat.lt_or_ge (i + 1) (q.End.year - q.Start.year).toNat with hlt | hge
  · simp [List.getElem?_append, List.getElem?_map, List.getElem?_range,
      List.getElem_append, List.getElem_map, List.getElem_range,
      Nat.lt_of_succ_lt hlt, hlt]
  · have hieq : i + 1 = (q.End.year - q.Start.year).toNat := by omega
    have hi : i < (q.End.year - q.Start.year).toNat := by omega
    simp [List.getElem?_append, List.getElem?_map, List.getElem?_range, hi, hieq]

theorem claim4_witness :
    qSpan.Start.after qSpan.End = false ∧
      qSpan.chunks.length = 3 ∧
      (qSpan.chunks[0]?).map wfs.Query.End = (qSpan.chunks[1]?).map wfs.Query.Start ∧
      (qSpan.chunks[1]?).map wfs.Query.End = (qSpan.chunks[2]?).map wfs.Query.Start := by
  have h := claim4_range_chunker qSpan (by decide)
  exact ⟨by decide, h.2.1.trans (by decide), h.2.2 0 (by rw [h.2.1]; decide),
    h.2.2 1 (by rw [h.2.1]; decide)⟩

/-- A result the quakeml12 fetcher emits always carries the event id it was
asked to fetch. -/
theorem fetchStep_publicID (id : String) (w : Wire quakeml12.Quakeml)
    (r : quakeml12.Result) (h : quakeml12.fetchStep id w = .ok r) : r.publicID = id := by
  rcases w with msg | ⟨st, re, body⟩
  · simp [quakeml12.fetchStep] at h
  · rcases re with _ | msg
    · simp only [quakeml12.fetchStep] at h
      by_cases hst : st ≠ 200
      · rw [if_pos hst] at h
        cases h
        rfl
      · rw [if_neg hst] at h
        rcases hu : quakeml12.unmarshal body with _ | ⟨e, err⟩
        · rw [hu] at h
          cases h
        · rw [hu] at h
          cases h
          rfl
    · simp only [quakeml12.fetchStep] at h
      cases h
      rfl

/-- The tolerant aggregation loop, when the fetch of every id emits a result: it
returns a map extending the accumulator with one entry per succeeding id, in
order. -/
theorem GetLoop_keys (tr : String → Wire quakeml12.Quakeml) :
    ∀ (ids : List String) (m : GoMap quakeml12.Event),
      (∀ id ∈ ids, ∃ r, quakeml12.fetchStep id (tr id) = .ok r) →
      ids.Nodup →
      (∀ id ∈ ids, id ∉ mapKeys m) →
      ∃ m', quakeml12.GetLoop tr ids m = .ok m' ∧
        mapKeys m' = mapKeys m ++ ids.filter (fun id => quakeml12.succeeds tr id) := by
  intro ids
  induction ids with
  | nil => intro m _ _ _; exact ⟨m, rfl, by simp⟩
  | cons id rest ih =>
    intro m hemit hnodup hfresh
    obtain ⟨r, hr⟩ := hemit id (by simp)
    have hpid : r.publicID = id := fetchStep_publicID _ _ _ hr
    have hnd := List.nodup_cons.mp hnodup
    rcases herr : r.err with _ | msg
    · -- success: the key is inserted
      have hidm : id ∉ mapKeys m := hfresh id (by simp)
      have hsucc : quakeml12.succeeds tr id = true := by
        simp [quakeml12.succeeds, hr, herr]
      have step : quakeml12.GetLoop tr (id :: rest) m =
          quakeml12.GetLoop tr rest (mapInsert m r.publicID r.event) := by
        simp [quakeml12.GetLoop, hr, herr]
      have hins : mapInsert m r.publicID r.event = m ++ [(id, r.event)] := by
        rw [hpid]; exact mapInsert_fresh _ hidm
      obtain ⟨m', hm', hk⟩ := ih (m ++ [(id, r.event)])
        (fun x hx => hemit x (by simp [hx]))
        hnd.2
        (fun x hx => by
          rw [mapKeys_append, List.mem_append]
          rintro (hx1 | hx2)
          · exact hfresh x (by simp [hx]) hx1
          · have : x = id := by simpa [mapKeys] using hx2
            exact hnd.1 (this ▸ hx))
      refine ⟨m', by rw [step, hins]; exact hm', ?_⟩
      rw [hk, mapKeys_append, List.filter_cons_of_pos hsucc]
      simp [mapKeys]
    · -- failure: the key is skipped
      have hfail : quakeml12.succeeds tr id = false := by
        simp [quakeml12.succeeds, hr, herr]
      have step : quakeml12.GetLoop tr (id :: rest) m = quakeml12.GetLoop tr rest m := by
        simp [quakeml12.GetLoop, hr, herr]
      obtain ⟨m', hm', hk⟩ := ih m
        (fun x hx => hemit x (by simp [hx]))
        hnd.2
        (fun x hx => hfresh x (by simp [hx]))
      refine ⟨m', by rw [step]; exact hm', ?_⟩
      rw [hk, List.filter_cons_of_neg (by simp [hfail])]

/-- Claim C5 (amended): tolerant `Get` over `K` distinct event ids, when every
fetch emits a result (non-2xx, decode and linking-completeness failures
included; transport failures instead crash the worker — see C7): it returns a
map keyed by exactly the requested ids that succeeded, with `K - F` entries
where `F` counts the failing ids; by construction it returns the map rather
than any error. -/
theorem claim5_amended_tolerant_get (tr : String → Wire quakeml12.Quakeml)
    (ids : List String) (hnodup : ids.Nodup)
    (hemit : ∀ id ∈ ids, ∃ r, quakeml12.fetchStep id (tr id) = .ok r) :
    ∃ m, quakeml12.Get tr ids = .ok m ∧
      mapKeys m = ids.filter (fun id => quakeml12.succeeds tr id) ∧
      m.length = ids.length - (ids.filter (fun id => !quakeml12.succeeds tr id)).length := by
  obtain ⟨m, hm, hk⟩ := GetLoop_keys tr ids [] hemit hnodup (by simp [mapKeys])
  have hkeys : mapKeys m = ids.filter (fun id => quakeml12.succeeds tr id) := by
    simpa [mapKeys] using hk
  refine ⟨m, hm, hkeys, ?_⟩
  have hlen : m.length = (mapKeys m).length := by simp [mapKeys]
  rw [hlen, hkeys]
  have hfun : (fun id => !quakeml12.succeeds tr id) =
      (fun a => decide (quakeml12.succeeds tr a = false)) := by
    funext x
    cases hx : quakeml12.succeeds tr x <;> simp [hx]
  rw [hfun]
  have hsplit := List.length_eq_countP_add_countP (fun id => quakeml12.succeeds tr id) ids
  rw [List.countP_eq_length_filter, List.countP_eq_length_filter] at hsplit
  simp only [Bool.not_eq_true] at hsplit
  omega

/-- Claim C5 counterexample: two distinct ids of which one fails with a
transport error; the claim demands a one-entry map, but the fetch worker
panics (the whole run crashes) instead. -/
theorem claim5_counterexample :
    ["a", "b"].Nodup ∧
      trCrash "a" = .transportError "connection refused" ∧
      quakeml12.Get trCrash ["a", "b"] = .crash :=
  ⟨by decide, rfl, rfl⟩

theorem claim5_witness :
    (["a", "c", "b"].Nodup ∧
      (∀ id ∈ ["a", "c", "b"], ∃ r, quakeml12.fetchStep id (trMixed id) = .ok r)) ∧
    ∃ m, quakeml12.Get trMixed ["a", "c", "b"] = .ok m ∧
      mapKeys m = ["a", "c", "b"].filter (fun id => quakeml12.succeeds trMixed id) ∧
      m.length =
        ["a", "c", "b"].length -
          (["a", "c", "b"].filter (fun id => !quakeml12.succeeds trMixed id)).length := by
  have hemit : ∀ id ∈ ["a", "c", "b"],
      ∃ r, quakeml12.fetchStep id (trMixed id) = .ok r := by
    intro id hid
    simp only [List.mem_cons, List.not_mem_nil, or_false] at hid
    rcases hid with rfl | rfl | rfl
    · exact ⟨_, rfl⟩
    · exact ⟨_, rfl⟩
    · exact ⟨_, rfl⟩
  exact ⟨⟨by decide, hemit⟩, claim5_amended_tolerant_get trMixed _ (by decide) hemit⟩

end QSearch
